import Mathlib

/-!
# Verification of the `alloc_zeroed` buffer/heap allocation library

Shallow embedding of the allocation routines of the `alloc_zeroed_rs`
repository.  Machine integers (`usize`) are modelled as `Nat` with explicit
reduction modulo `2 ^ 64` wherever the Rust code performs arithmetic that can
wrap in a release build.  A byte buffer is a base address together with a list
of byte values; the functions return both the call's result and the bytes of
the original buffer region after the call, which makes the memory effects of
each operation (zero-filling, or no write at all on the error paths) explicit.

Rust operations that can abort at runtime (`slice::split_at_mut` with an
out-of-range midpoint, `Option::unwrap` on `None`) are modelled by a dedicated
`panicked` outcome, distinct from the structured `AllocError` results.
-/

set_option maxRecDepth 4096

/-- The number of values of the 64-bit `usize` type: `2 ^ 64`. -/
def USIZE : Nat := 2 ^ 64

/-- `usize::MAX`, the largest representable `usize` value. -/
def usizeMAX : Nat := USIZE - 1

/-- `<*mut u8>::align_offset`: the smallest forward offset `o` such that
`addr + o` is a multiple of `align` (for byte pointers the stride is 1, so the
offset is always computable when `align` is a nonzero power of two). -/
def alignOffset (addr align : Nat) : Nat :=
  (align - addr % align) % align

/-- `core::ptr::NonNull::<T>::dangling()`: the fixed, non-null sentinel
address used for zero-sized values, equal to `T`'s alignment. -/
def danglingAddr (align : Nat) : Nat := align

/-- A caller-supplied byte buffer: its start address and its byte contents. -/
structure Buffer where
  addr : Nat
  data : List Nat
deriving Repr, DecidableEq

/-- The closed error taxonomy `AllocErrorKind` of the repository
(`src/core/src/core/error.rs` and the enum in `src/src/lib.rs`). -/
inductive AllocErrorKind where
  | BufferTooSmall (required available alignment : Nat)
  | OutOfMemory (required alignment : Nat)
  | AlignmentFailed (required_alignment address : Nat)
  | InvalidLayout (size alignment : Nat)
deriving Repr, DecidableEq

/-- Outcome of a call: a success value, a structured error, or a runtime
abort (a Rust panic, e.g. `split_at_mut` out of range). -/
inductive AllocResult (α : Type) where
  | ok : α → AllocResult α
  | err : AllocErrorKind → AllocResult α
  | panicked : AllocResult α
deriving Repr, DecidableEq

/-- Successful result of `alloc_zeroed_slice_with_remainder`: the address and
element count of the returned typed slice, and the remainder buffer. -/
structure SliceAlloc where
  sliceAddr : Nat
  sliceLen : Nat
  remainder : Buffer
deriving Repr, DecidableEq

/-- `AllocZeroed::alloc_zeroed_slice_with_remainder` from
`src/core/src/core/mod.rs` (lines 302-357).  The second component of the
returned pair is the contents of the caller's buffer region after the call.
`size * count % USIZE` renders the unchecked Rust multiplication
`size * count`, which wraps in a release build (in a debug build the same
expression aborts on overflow); `mem.data.length - offset` is `Nat`
subtraction, which coincides with `usize::saturating_sub`.  The `panicked`
branch renders `mem.split_at_mut(offset)` aborting when `offset` exceeds the
buffer's length. -/
def alloc_zeroed_slice_with_remainder (size align : Nat) (mem : Buffer)
    (count : Nat) : AllocResult SliceAlloc × List Nat :=
  if size = 0 then
    (.ok ⟨danglingAddr align, usizeMAX, mem⟩, mem.data)
  else
    let offset := alignOffset mem.addr align
    if offset = usizeMAX then
      (.err (.AlignmentFailed align mem.addr), mem.data)
    else
      let available_bytes := mem.data.length - offset
      let total_bytes := size * count % USIZE
      if available_bytes < total_bytes then
        (.err (.BufferTooSmall total_bytes available_bytes align), mem.data)
      else if mem.data.length < offset then
        (.panicked, mem.data)
      else
        (.ok ⟨mem.addr + offset, count,
              ⟨mem.addr + offset + total_bytes,
               mem.data.drop (offset + total_bytes)⟩⟩,
         mem.data.take offset ++ List.replicate total_bytes 0 ++
           mem.data.drop (offset + total_bytes))

/-- `AllocZeroed::alloc_zeroed_slice` from `src/core/src/core/mod.rs`
(lines 180-197): compute the maximal fitting count, then delegate to
`alloc_zeroed_slice_with_remainder` (the remainder is dropped by the Rust
code; we keep the full result so the memory effect stays visible). -/
def alloc_zeroed_slice (size align : Nat) (mem : Buffer) :
    AllocResult SliceAlloc × List Nat :=
  let offset := alignOffset mem.addr align
  let available_bytes := mem.data.length - offset
  let count := if size = 0 then usizeMAX else available_bytes / size
  alloc_zeroed_slice_with_remainder size align mem count

/-- `AllocZeroed::alloc_zeroed_with_remainder` from `src/core/src/core/mod.rs`
(lines 145-149): delegate with `count = 1` and take the first element via
`slice.first_mut().unwrap()`, which aborts exactly when the returned slice is
empty. -/
def alloc_zeroed_with_remainder (size align : Nat) (mem : Buffer) :
    AllocResult (Nat × Buffer) × List Nat :=
  match alloc_zeroed_slice_with_remainder size align mem 1 with
  | (.ok r, d) =>
      if r.sliceLen = 0 then (.panicked, d) else (.ok (r.sliceAddr, r.remainder), d)
  | (.err e, d) => (.err e, d)
  | (.panicked, d) => (.panicked, d)

/-- `AllocZeroed::alloc_zeroed_slice` from `src/src/core/mod.rs`
(lines 140-195), the second revision of the max-fit operation: it checks
`available_bytes < size` itself and errors, then zero-fills
`count * size` bytes in place.  Success value: slice address and count. -/
def alloc_zeroed_slice_v2 (size align : Nat) (mem : Buffer) :
    AllocResult (Nat × Nat) × List Nat :=
  if size = 0 then
    (.ok (danglingAddr align, usizeMAX), mem.data)
  else
    let offset := alignOffset mem.addr align
    if offset = usizeMAX then
      (.err (.AlignmentFailed align mem.addr), mem.data)
    else
      let available_bytes := mem.data.length - offset
      if available_bytes < size then
        (.err (.BufferTooSmall size available_bytes align), mem.data)
      else
        let count := available_bytes / size
        let total_bytes := count * size % USIZE
        (.ok (mem.addr + offset, count),
         mem.data.take offset ++ List.replicate total_bytes 0 ++
           mem.data.drop (offset + total_bytes))

/-- `AllocZeroed::alloc_zeroed` from `src/src/lib.rs` (lines 7-47), the
single-value buffer allocation: on success the `size` bytes at the aligned
offset are zeroed by `ptr.write_bytes(0, 1)` and the address is returned. -/
def alloc_zeroed_single (size align : Nat) (mem : Buffer) :
    AllocResult Nat × List Nat :=
  let offset := alignOffset mem.addr align
  if size = 0 then
    (.ok (danglingAddr align), mem.data)
  else if offset = usizeMAX then
    (.err (.AlignmentFailed align mem.addr), mem.data)
  else if mem.data.length - offset < size then
    (.err (.BufferTooSmall size (mem.data.length - offset) align), mem.data)
  else
    (.ok (mem.addr + offset),
     mem.data.take offset ++ List.replicate size 0 ++
       mem.data.drop (offset + size))

/-- The `alloc_zeroed` generated by `#[derive(AllocZeroed)]` in
`src/macros/src/lib.rs` (lines 49-75).  It returns `none` for failure
(`Option`, no structured error).  The capacity test is
`size > len - offset` with an UNCHECKED `usize` subtraction, rendered here
with its release-build wrapping semantics `(len + USIZE - offset) % USIZE`
(a debug build aborts when `offset > len`).  When the test passes the
generated code writes a `Self` at `mem_ptr + offset`; the success value is
that write's (relative offset, byte length), in or out of bounds. -/
def derive_alloc_zeroed (size align : Nat) (mem : Buffer) :
    Option (Nat × Nat) :=
  let offset := alignOffset mem.addr align
  if offset = usizeMAX ∨ size > (mem.data.length + USIZE - offset) % USIZE then
    none
  else
    some (offset, size)

/-- The bytes handed out by the external `std::alloc::alloc_zeroed`
primitive on success: by the standard allocator's contract the whole block
reads as zero. -/
def stdAllocZeroedBlock (size : Nat) : List Nat :=
  List.replicate size 0

/-- `AllocZeroedBoxed::alloc_zeroed_boxed` from `src/src/std/mod.rs`
(lines 57-93) (the free function `alloc_zeroed` in `src/src/lib.rs`
lines 58-89 is the same algorithm): zero-sized types short-circuit to the
dangling sentinel without consulting the allocator; otherwise the global
allocator `heap` is asked for `Layout::new::<T>` = (`size`, `align`) and a
`none` (null) reply becomes an `OutOfMemory` error carrying exactly that
layout. -/
def alloc_zeroed_boxed (size align : Nat)
    (heap : Nat → Nat → Option Nat) : AllocResult Nat :=
  if size = 0 then
    .ok (danglingAddr align)
  else
    match heap size align with
    | none => .err (.OutOfMemory size align)
    | some p => .ok p

/-- Offset of the allocation region inside the buffer: `0` for a zero-sized
type (nothing is carved out of the buffer), the alignment offset otherwise. -/
def allocOffset (size align addr : Nat) : Nat :=
  if size = 0 then 0 else alignOffset addr align

/-- Number of buffer bytes occupied by the allocation region: `0` for a
zero-sized type, the (wrapped) product `size * count % USIZE` otherwise. -/
def allocTotalBytes (size count : Nat) : Nat :=
  if size = 0 then 0 else size * count % USIZE

/-! ## Helper lemmas -/

/-- For a zero-sized type `alloc_zeroed_slice_with_remainder` reduces to its
first branch: success with the dangling sentinel, a `usize::MAX`-length
slice, the untouched buffer as remainder, and no write. -/
theorem zst_slice_spec (align : Nat) (mem : Buffer) (count : Nat) :
    alloc_zeroed_slice_with_remainder 0 align mem count =
      (.ok ⟨danglingAddr align, usizeMAX, mem⟩, mem.data) := rfl

/-- On every error return of `alloc_zeroed_slice_with_remainder` the buffer
bytes are those of the input buffer: no error path writes anything. -/
theorem slice_with_remainder_err_bytes (size align : Nat) (mem : Buffer)
    (count : Nat) (e : AllocErrorKind) (d : List Nat)
    (h : alloc_zeroed_slice_with_remainder size align mem count = (.err e, d)) :
    d = mem.data := by
  simp only [alloc_zeroed_slice_with_remainder] at h
  split at h
  · simp at h
  · split at h
    · rw [Prod.mk.injEq] at h
      exact h.2.symm
    · split at h
      · rw [Prod.mk.injEq] at h
        exact h.2.symm
      · split at h
        · simp at h
        · simp at h

/-- On every error return of `alloc_zeroed_single` the buffer bytes are those
of the input buffer: no error path writes anything. -/
theorem single_err_bytes (size align : Nat) (mem : Buffer)
    (e : AllocErrorKind) (d : List Nat)
    (h : alloc_zeroed_single size align mem = (.err e, d)) :
    d = mem.data := by
  simp only [alloc_zeroed_single] at h
  split at h
  · simp at h
  · split at h
    · rw [Prod.mk.injEq] at h
      exact h.2.symm
    · split at h
      · rw [Prod.mk.injEq] at h
        exact h.2.symm
      · simp at h

/-! ## Claim theorems -/

/-- C1: `alloc_zeroed_slice_with_remainder` computes `size * count` with an
unchecked multiplication.  For a type of size 2 and `count = 2 ^ 63` the
product wraps to 0 in a release build, so the capacity check passes and the
call returns a SUCCESSFUL allocation of (allegedly) `2 ^ 63` elements from an
EMPTY buffer, contradicting the requirement that overflow be reported as a
buffer-too-small / invalid-layout error. -/
theorem C1_mul_overflow_wraps_to_success :
    (alloc_zeroed_slice_with_remainder 2 1 ⟨0, []⟩ (2 ^ 63)).1 =
      .ok ⟨0, 2 ^ 63, ⟨0, []⟩⟩ := by
  decide

/-- C2: the max-fit `alloc_zeroed_slice` of `src/core/src/core/mod.rs` does
NOT fail with a buffer-too-small error when the available bytes after
alignment (here 3) are smaller than `size(T)` (here 4): the computed count is
`3 / 4 = 0` and the delegated call succeeds with an empty slice. -/
theorem C2_too_small_yields_empty_success :
    (alloc_zeroed_slice 4 4 ⟨0, [1, 2, 3]⟩).1 = .ok ⟨0, 0, ⟨0, [1, 2, 3]⟩⟩ ∧
    (3 : Nat) < 4 := by
  refine ⟨?_, by decide⟩
  decide

/-- C3 counterexample: for a zero-sized type and `count = 0` the returned
slice has length `usize::MAX`, not length `count = 0` as the claim states. -/
theorem C3_counterexample :
    (alloc_zeroed_slice_with_remainder 0 4 ⟨0, [7]⟩ 0).1 =
      .ok ⟨danglingAddr 4, usizeMAX, ⟨0, [7]⟩⟩ ∧ usizeMAX ≠ 0 := by
  refine ⟨by decide, by decide⟩

/-- C3 (amended): for every zero-sized type, every buffer and every `count`,
`alloc_zeroed_slice_with_remainder` succeeds, returns a slice of length
`usize::MAX` at the dangling sentinel address — independent of `count` — and
returns the original buffer unchanged as the remainder, writing nothing. -/
theorem C3_zst_unlimited_and_buffer_unchanged (align : Nat) (mem : Buffer)
    (count : Nat) :
    alloc_zeroed_slice_with_remainder 0 align mem count =
      (.ok ⟨danglingAddr align, usizeMAX, mem⟩, mem.data) := by
  simp [alloc_zeroed_slice_with_remainder]
/-- C4: zero-fill totality: on every successful allocation — counted slice
with remainder (which the single-with-remainder and max-fit variants delegate
to), single value, or heap — every byte of the returned region reads as zero
immediately after the call. -/
theorem C4_zero_fill_totality :
    (∀ size align mem count r d,
        alloc_zeroed_slice_with_remainder size align mem count = (.ok r, d) →
        (d.drop (allocOffset size align mem.addr)).take
            (allocTotalBytes size count) =
          List.replicate (allocTotalBytes size count) 0) ∧
    (∀ size align mem a d,
        alloc_zeroed_single size align mem = (.ok a, d) →
        (d.drop (allocOffset size align mem.addr)).take size =
          List.replicate size 0) ∧
    (∀ size align heap a,
        alloc_zeroed_boxed size align heap = .ok a →
        stdAllocZeroedBlock size = List.replicate size 0) := by
  refine ⟨?_, ?_, fun _ _ _ _ _ => rfl⟩
  · intro size align mem count r d h
    by_cases hs : size = 0
    · subst hs
      simp only [alloc_zeroed_slice_with_remainder, if_pos rfl,
        Prod.mk.injEq] at h
      simp [allocTotalBytes]
    · simp only [alloc_zeroed_slice_with_remainder, if_neg hs] at h
      split at h
      · simp at h
      · split at h
        · simp at h
        · split at h
          · simp at h
          · rw [Prod.mk.injEq] at h
            obtain ⟨-, hd⟩ := h
            subst hd
            rename_i hoff hcap hpan
            rw [Nat.not_lt] at hpan
            have hlen : (mem.data.take (alignOffset mem.addr align)).length =
                alignOffset mem.addr align := by
              rw [List.length_take]
              omega
            have htot : (List.replicate (size * count % USIZE) (0 : Nat)).length =
                size * count % USIZE := List.length_replicate _ _
            simp only [allocOffset, if_neg hs, allocTotalBytes]
            rw [List.append_assoc, List.drop_left' hlen, List.take_left' htot]
  · intro size align mem a d h
    by_cases hs : size = 0
    · subst hs
      simp only [alloc_zeroed_single, if_pos rfl, Prod.mk.injEq] at h
      simp
    · simp only [alloc_zeroed_single, if_neg hs] at h
      split at h
      · simp at h
      · split at h
        · simp at h
        · rw [Prod.mk.injEq] at h
          obtain ⟨-, hd⟩ := h
          subst hd
          rename_i hoff hcap
          rw [Nat.not_lt] at hcap
          have hlen : (mem.data.take (alignOffset mem.addr align)).length =
              alignOffset mem.addr align := by
            rw [List.length_take]
            omega
          have htot : (List.replicate size (0 : Nat)).length = size :=
            List.length_replicate _ _
          simp only [allocOffset, if_neg hs]
          rw [List.append_assoc, List.drop_left' hlen, List.take_left' htot]

/-- C4 witness: instantiating the slice branch at a type of size 1 and a
2-byte buffer pre-filled with nonzero bytes. -/
theorem C4_witness :
    (([0, 0] : List Nat).drop (allocOffset 1 1 0)).take (allocTotalBytes 1 2) =
      List.replicate (allocTotalBytes 1 2) 0 :=
  C4_zero_fill_totality.1 1 1 ⟨0, [9, 9]⟩ 2 ⟨0, 2, ⟨2, []⟩⟩ [0, 0] (by decide)
/-- C5: failure atomicity and idempotence: every failing buffer allocation
(counted-slice variant, and the single-value variant) leaves the buffer bytes
exactly as they were, and re-invoking the operation on that unchanged buffer
produces the same error with the same numeric fields. -/
theorem C5_failing_call_atomic_and_idempotent :
    (∀ size align mem count e d,
        alloc_zeroed_slice_with_remainder size align mem count = (.err e, d) →
        d = mem.data ∧
        alloc_zeroed_slice_with_remainder size align ⟨mem.addr, d⟩ count =
          (.err e, d)) ∧
    (∀ size align mem e d,
        alloc_zeroed_single size align mem = (.err e, d) →
        d = mem.data ∧
        alloc_zeroed_single size align ⟨mem.addr, d⟩ = (.err e, d)) := by
  constructor
  · intro size align mem count e d h
    obtain ⟨addr, data⟩ := mem
    have hd : d = data := slice_with_remainder_err_bytes _ _ _ _ _ _ h
    subst hd
    exact ⟨rfl, h⟩
  · intro size align mem e d h
    obtain ⟨addr, data⟩ := mem
    have hd : d = data := single_err_bytes _ _ _ _ _ h
    subst hd
    exact ⟨rfl, h⟩

/-- C5 witness: a 4-byte type against an empty buffer fails with
`BufferTooSmall 4 0 1`, leaves the (empty) byte list unchanged, and the
repeated call returns the identical error. -/
theorem C5_witness :
    ([] : List Nat) = Buffer.data ⟨0, []⟩ ∧
    alloc_zeroed_slice_with_remainder 4 1 ⟨0, []⟩ 1 =
      (.err (.BufferTooSmall 4 0 1), []) :=
  C5_failing_call_atomic_and_idempotent.1 4 1 ⟨0, []⟩ 1
    (.BufferTooSmall 4 0 1) [] (by decide)
/-- C6: region partition: on every successful counted-slice allocation the
skipped alignment padding `[0, o)`, the allocation region `[o, o + total)`
and the remainder `[o + total, end)` lie within the buffer, are pairwise
disjoint (adjacent intervals), and reassemble exactly the original buffer's
byte range: the padding bytes are untouched, the region is the zero-fill,
the remainder keeps the original tail bytes and its address is the buffer
address advanced past padding and region. -/
theorem C6_partition_of_buffer :
    ∀ size align mem count r d,
      alloc_zeroed_slice_with_remainder size align mem count = (.ok r, d) →
      allocOffset size align mem.addr + allocTotalBytes size count ≤
          mem.data.length ∧
      d = mem.data.take (allocOffset size align mem.addr) ++
            List.replicate (allocTotalBytes size count) 0 ++
            mem.data.drop
              (allocOffset size align mem.addr + allocTotalBytes size count) ∧
      r.remainder.data =
        mem.data.drop
          (allocOffset size align mem.addr + allocTotalBytes size count) ∧
      r.remainder.addr =
        mem.addr + allocOffset size align mem.addr + allocTotalBytes size count ∧
      d.length = mem.data.length := by
  intro size align mem count r d h
  by_cases hs : size = 0
  · subst hs
    rw [zst_slice_spec, Prod.mk.injEq, AllocResult.ok.injEq] at h
    obtain ⟨hr, hd⟩ := h
    subst hd
    subst hr
    simp [allocOffset, allocTotalBytes]
  · simp only [alloc_zeroed_slice_with_remainder, if_neg hs] at h
    split at h
    · simp at h
    · split at h
      · simp at h
      · split at h
        · simp at h
        · rw [Prod.mk.injEq, AllocResult.ok.injEq] at h
          obtain ⟨hr, hd⟩ := h
          subst hd
          subst hr
          rename_i hoff hcap hpan
          rw [Nat.not_lt] at hcap hpan
          refine ⟨?_, ?_, ?_, ?_, ?_⟩
          · simp only [allocOffset, if_neg hs, allocTotalBytes]
            omega
          · simp [allocOffset, if_neg hs, allocTotalBytes]
          · simp [allocOffset, if_neg hs, allocTotalBytes]
          · simp [allocOffset, if_neg hs, allocTotalBytes]
          · simp only [List.length_append, List.length_take,
              List.length_replicate, List.length_drop]
            omega

/-- C6 witness: a 1-byte type allocated with count 1 from a 1-byte aligned
buffer: empty padding, a 1-byte zeroed region, an empty remainder. -/
theorem C6_witness :
    allocOffset 1 1 (Buffer.addr ⟨0, [9]⟩) + allocTotalBytes 1 1 ≤
        (Buffer.data ⟨0, [9]⟩).length ∧
    ([0] : List Nat) = (Buffer.data ⟨0, [9]⟩).take (allocOffset 1 1 0) ++
        List.replicate (allocTotalBytes 1 1) 0 ++
        (Buffer.data ⟨0, [9]⟩).drop (allocOffset 1 1 0 + allocTotalBytes 1 1) ∧
    Buffer.data ⟨1, []⟩ =
      (Buffer.data ⟨0, [9]⟩).drop (allocOffset 1 1 0 + allocTotalBytes 1 1) ∧
    Buffer.addr ⟨1, []⟩ = 0 + allocOffset 1 1 0 + allocTotalBytes 1 1 ∧
    ([0] : List Nat).length = (Buffer.data ⟨0, [9]⟩).length :=
  C6_partition_of_buffer 1 1 ⟨0, [9]⟩ 1 ⟨0, 1, ⟨1, []⟩⟩ [0] (by decide)
/-- C7: the `alloc_zeroed` generated by the derive macro
(`src/macros/src/lib.rs`) computes `len - offset` with an UNCHECKED `usize`
subtraction.  For a derived type of size 4 and alignment 16, and a 3-byte
buffer at address 1 (alignment offset 15 > 3), the release-build subtraction
wraps to `2 ^ 64 - 12`, the capacity test passes, and the generated code goes
on to write 4 bytes at offset 15 — past the 3-byte buffer — instead of
failing with a buffer-too-small error (a debug build aborts on the
subtraction instead). -/
theorem C7_macro_unchecked_sub_writes_out_of_bounds :
    derive_alloc_zeroed 4 16 ⟨1, [0, 0, 0]⟩ = some (15, 4) ∧
    (Buffer.data ⟨1, [0, 0, 0]⟩).length < 15 + 4 := by
  refine ⟨by decide, by decide⟩

/-- C8: `alloc_zeroed_slice_with_remainder` CAN abort: with a type of size 4
and alignment 16, a 3-byte buffer at address 1 (alignment offset 15) and
`count = 0`, all checks pass (`total_bytes = 0`, saturating
`available_bytes = 0`) and `mem.split_at_mut(15)` then aborts because 15
exceeds the buffer length 3, instead of any error being returned. -/
theorem C8_split_at_mut_aborts :
    (alloc_zeroed_slice_with_remainder 4 16 ⟨1, [0, 0, 0]⟩ 0).1 =
      .panicked := by
  decide

/-- C9 counterexample: allocation of `count = 2 ^ 62` elements of a 4-byte
type from an EMPTY buffer succeeds (the unchecked product wraps to 0), yet
allocation of only `count' = 1 < 2 ^ 62` elements from the same buffer state
fails with `BufferTooSmall` — refuting monotonic capacity as stated. -/
theorem C9_counterexample :
    (alloc_zeroed_slice_with_remainder 4 1 ⟨0, []⟩ (2 ^ 62)).1 =
      .ok ⟨0, 2 ^ 62, ⟨0, []⟩⟩ ∧
    (1 : Nat) < 2 ^ 62 ∧
    (alloc_zeroed_slice_with_remainder 4 1 ⟨0, []⟩ 1).1 =
      .err (.BufferTooSmall 4 0 1) := by
  refine ⟨by decide, by decide, by decide⟩
/-- C9 (amended): monotonic capacity holds whenever the byte requirement
`size * count` of the larger request does not overflow `usize`: if
`alloc_zeroed_slice_with_remainder` succeeds for `count` elements from a
buffer state and `count' < count`, it also succeeds for `count'` elements
from the same buffer state. -/
theorem C9_monotonic_capacity_without_overflow :
    ∀ size align mem count count' r d,
      count' < count → size * count < USIZE →
      alloc_zeroed_slice_with_remainder size align mem count = (.ok r, d) →
      ∃ r' d',
        alloc_zeroed_slice_with_remainder size align mem count' =
          (.ok r', d') := by
  intro size align mem count count' r d hlt hov h
  by_cases hs : size = 0
  · subst hs
    exact ⟨_, _, zst_slice_spec align mem count'⟩
  · simp only [alloc_zeroed_slice_with_remainder, if_neg hs] at h
    split at h
    · simp at h
    · split at h
      · simp at h
      · split at h
        · simp at h
        · rename_i hoff hcap hpan
          rw [Nat.not_lt] at hcap hpan
          have hov' : size * count' < USIZE :=
            lt_of_le_of_lt (Nat.mul_le_mul_left size (le_of_lt hlt)) hov
          have hle : size * count' % USIZE ≤ size * count % USIZE := by
            rw [Nat.mod_eq_of_lt hov, Nat.mod_eq_of_lt hov']
            exact Nat.mul_le_mul_left size (le_of_lt hlt)
          refine ⟨⟨mem.addr + alignOffset mem.addr align, count',
              ⟨mem.addr + alignOffset mem.addr align + size * count' % USIZE,
               mem.data.drop
                 (alignOffset mem.addr align + size * count' % USIZE)⟩⟩,
            mem.data.take (alignOffset mem.addr align) ++
              List.replicate (size * count' % USIZE) 0 ++
              mem.data.drop
                (alignOffset mem.addr align + size * count' % USIZE), ?_⟩
          simp only [alloc_zeroed_slice_with_remainder, if_neg hs,
            if_neg hoff]
          rw [if_neg (by omega), if_neg (by omega)]

/-- C9 witness: a 1-byte type, a 2-byte buffer, counts 2 and 1. -/
theorem C9_witness :
    ∃ r' d',
      alloc_zeroed_slice_with_remainder 1 1 ⟨0, [5, 5]⟩ 1 = (.ok r', d') :=
  C9_monotonic_capacity_without_overflow 1 1 ⟨0, [5, 5]⟩ 2 1
    ⟨0, 2, ⟨2, []⟩⟩ [0, 0] (by decide) (by decide) (by decide)

/-- C10: the heap allocation path: for a type of nonzero size whose layout is
(`size`, `align`), a null reply from the global allocator becomes an
out-of-memory error carrying exactly `size` and `align`; for a zero-sized
type the call succeeds with the dangling sentinel for EVERY allocator — the
allocator is never consulted. -/
theorem C10_heap_oom_fields_and_zst_short_circuit :
    (∀ size align heap, 0 < size → heap size align = none →
        alloc_zeroed_boxed size align heap =
          .err (.OutOfMemory size align)) ∧
    (∀ align heap, alloc_zeroed_boxed 0 align heap =
        .ok (danglingAddr align)) := by
  constructor
  · intro size align heap hpos hnone
    unfold alloc_zeroed_boxed
    rw [if_neg (by omega), hnone]
  · intro align heap
    rfl

/-- C10 witness: a 4-byte, 4-aligned layout against an allocator that always
reports exhaustion. -/
theorem C10_witness :
    alloc_zeroed_boxed 4 4 (fun _ _ => none) = .err (.OutOfMemory 4 4) :=
  C10_heap_oom_fields_and_zst_short_circuit.1 4 4 (fun _ _ => none)
    (by decide) rfl
